import Mathlib

/-!
Verification of the startup orchestrator in `cmd/manager/main.go` of the
kubeflow operator: the GVK filtering algorithm (`filterGKVsFromAddToScheme`),
the manager-options construction from the watch-namespace string, and the
startup control flow of `main` and `serveCRMetrics`.
-/

namespace KfctlMain

/-- A Kubernetes Group/Version/Kind type descriptor
(`schema.GroupVersionKind` in the Go source). -/
structure GroupVersionKind where
  Group : String
  Version : String
  Kind : String
deriving DecidableEq, Repr

/-- The wildcard marker, `matchAnyValue := "*"` in `filterGKVsFromAddToScheme`. -/
def matchAnyValue : String := "*"

/-- The inner loop body of `filterGKVsFromAddToScheme`: starting from
`match := true`, the all-wildcard spec forces `match = false`; otherwise each
of the three `if` statements clears `match` when the watched field is neither
the wildcard nor equal to the descriptor field. -/
def gvkMatch (watchedGVK gvk : GroupVersionKind) : Bool :=
  if watchedGVK.Kind == matchAnyValue && watchedGVK.Group == matchAnyValue
      && watchedGVK.Version == matchAnyValue then
    false
  else
    !(watchedGVK.Kind != matchAnyValue && watchedGVK.Kind != gvk.Kind)
      && !(watchedGVK.Group != matchAnyValue && watchedGVK.Group != gvk.Group)
      && !(watchedGVK.Version != matchAnyValue && watchedGVK.Version != gvk.Version)

/-- `filterGKVsFromAddToScheme` from `cmd/manager/main.go`: the nested loops,
outer over `gvks`, inner over the watched-resources registry, appending `gvk`
to `ownGVKs` whenever the pair matches.  The process-wide registry
`kfdefcontroller.WatchedResources` (not part of the analysed file) is taken as
the parameter `watchedResources`. -/
def filterGKVsFromAddToScheme (watchedResources : List GroupVersionKind)
    (gvks : List GroupVersionKind) : List GroupVersionKind :=
  gvks.foldl (fun ownGVKs gvk =>
    watchedResources.foldl (fun own watchedGVK =>
      if gvkMatch watchedGVK gvk then own ++ [gvk] else own) ownGVKs) []

/-- The inclusions a single descriptor `gvk` produces: one copy per matching
spec, in registry order. -/
def inclusionsFor (gvk : GroupVersionKind) :
    List GroupVersionKind → List GroupVersionKind
  | [] => []
  | w :: ws => (if gvkMatch w gvk then [gvk] else []) ++ inclusionsFor gvk ws

lemma inner_foldl_eq (gvk : GroupVersionKind) (ws : List GroupVersionKind)
    (acc : List GroupVersionKind) :
    ws.foldl (fun own watchedGVK =>
      if gvkMatch watchedGVK gvk then own ++ [gvk] else own) acc
      = acc ++ inclusionsFor gvk ws := by
  induction ws generalizing acc with
  | nil => simp [inclusionsFor]
  | cons w ws ih =>
    simp only [List.foldl_cons, inclusionsFor]
    by_cases h : gvkMatch w gvk
    · simp [h, ih]
    · simp [h, ih]

lemma filter_eq_flatten (watched gvks : List GroupVersionKind) :
    filterGKVsFromAddToScheme watched gvks
      = (gvks.map (fun gvk => inclusionsFor gvk watched)).flatten := by
  unfold filterGKVsFromAddToScheme
  suffices h : ∀ acc : List GroupVersionKind,
      gvks.foldl (fun ownGVKs gvk =>
        watched.foldl (fun own watchedGVK =>
          if gvkMatch watchedGVK gvk then own ++ [gvk] else own) ownGVKs) acc
        = acc ++ (gvks.map (fun gvk => inclusionsFor gvk watched)).flatten by
    simpa using h []
  induction gvks with
  | nil => simp
  | cons g gs ih =>
    intro acc
    simp only [List.foldl_cons, List.map_cons, List.flatten_cons]
    rw [inner_foldl_eq, ih, List.append_assoc]

/-- Spec section 4.1, single-field clause: the spec field is the wildcard
marker or equals the descriptor field exactly (case-sensitive). -/
def specFieldMatches (specField descField : String) : Prop :=
  specField = matchAnyValue ∨ specField = descField

/-- Spec section 4.1 matching rule for a (descriptor, spec) pair, written from
the spec text: an all-wildcard spec matches nothing; otherwise each of the
three fields matches independently. -/
def specMatches (s g : GroupVersionKind) : Prop :=
  ¬(s.Group = matchAnyValue ∧ s.Version = matchAnyValue ∧ s.Kind = matchAnyValue)
    ∧ specFieldMatches s.Group g.Group
    ∧ specFieldMatches s.Version g.Version
    ∧ specFieldMatches s.Kind g.Kind

lemma gvkMatch_iff_specMatches (w g : GroupVersionKind) :
    gvkMatch w g = true ↔ specMatches w g := by
  simp only [gvkMatch, specMatches, specFieldMatches]
  split
  · next h =>
    simp only [Bool.and_eq_true, beq_iff_eq] at h
    simp only [Bool.false_eq_true, false_iff]
    tauto
  · next h =>
    simp only [Bool.and_eq_true, beq_iff_eq] at h
    simp only [Bool.and_eq_true, Bool.not_eq_true', Bool.and_eq_false_iff,
      bne_eq_false_iff_eq, bne_iff_ne, ne_eq]
    tauto

lemma mem_inclusionsFor (g gvk : GroupVersionKind) (ws : List GroupVersionKind) :
    g ∈ inclusionsFor gvk ws ↔ g = gvk ∧ ∃ w ∈ ws, gvkMatch w gvk = true := by
  induction ws with
  | nil => simp [inclusionsFor]
  | cons w ws ih =>
    simp only [inclusionsFor, List.mem_append, ih, List.mem_cons]
    by_cases h : gvkMatch w gvk = true
    · rw [if_pos h]
      simp only [List.mem_singleton]
      constructor
      · rintro (rfl | ⟨rfl, hw⟩)
        · exact ⟨rfl, w, Or.inl rfl, h⟩
        · rcases hw with ⟨w2, hw2, hm2⟩
          exact ⟨rfl, w2, Or.inr hw2, hm2⟩
      · rintro ⟨rfl, w2, hw2 | hw2, hm2⟩
        · exact Or.inl rfl
        · exact Or.inr ⟨rfl, w2, hw2, hm2⟩
    · rw [if_neg h]
      simp only [List.not_mem_nil, false_or]
      constructor
      · rintro ⟨rfl, w2, hw2, hm2⟩
        exact ⟨rfl, w2, Or.inr hw2, hm2⟩
      · rintro ⟨rfl, w2, hw2 | hw2, hm2⟩
        · exact absurd (hw2 ▸ hm2) h
        · exact ⟨rfl, w2, hw2, hm2⟩

lemma mem_filter_iff (watched gvks : List GroupVersionKind)
    (g : GroupVersionKind) :
    g ∈ filterGKVsFromAddToScheme watched gvks
      ↔ g ∈ gvks ∧ ∃ w ∈ watched, gvkMatch w g = true := by
  rw [filter_eq_flatten]
  simp only [List.mem_flatten, List.mem_map]
  constructor
  · rintro ⟨l, ⟨gvk, hgvk, rfl⟩, hmem⟩
    rcases (mem_inclusionsFor g gvk watched).mp hmem with ⟨rfl, hw⟩
    exact ⟨hgvk, hw⟩
  · rintro ⟨hg, hw⟩
    exact ⟨inclusionsFor g watched, ⟨g, hg, rfl⟩,
      (mem_inclusionsFor g g watched).mpr ⟨rfl, hw⟩⟩

/-- **C1.** Every element of `filterGKVsFromAddToScheme watched gvks` is an
element of `gvks` by value, and a descriptor of `gvks` appears in the output
iff it matches at least one spec of the registry under the matching rule of
spec section 4.1. -/
theorem filter_subset_and_mem_iff_specMatch (watched gvks : List GroupVersionKind) :
    (∀ g ∈ filterGKVsFromAddToScheme watched gvks, g ∈ gvks)
      ∧ ∀ g, g ∈ filterGKVsFromAddToScheme watched gvks
          ↔ g ∈ gvks ∧ ∃ s ∈ watched, specMatches s g := by
  constructor
  · intro g hg
    exact ((mem_filter_iff watched gvks g).mp hg).1
  · intro g
    rw [mem_filter_iff]
    simp only [gvkMatch_iff_specMatches]

/-- **C2.** For a spec `s` that is not all-wildcard, `(g, s)` matches iff each
of the three fields of `s` is independently the wildcard or equal to the
corresponding field of `g`; in particular the spec
`{Group:"*", Version:"*", Kind:"Foo"}` matches exactly the descriptors whose
Kind equals `"Foo"`. -/
theorem gvkMatch_fieldwise (s g : GroupVersionKind)
    (h : ¬(s.Group = matchAnyValue ∧ s.Version = matchAnyValue
            ∧ s.Kind = matchAnyValue)) :
    (gvkMatch s g = true
        ↔ (s.Group = matchAnyValue ∨ s.Group = g.Group)
          ∧ (s.Version = matchAnyValue ∨ s.Version = g.Version)
          ∧ (s.Kind = matchAnyValue ∨ s.Kind = g.Kind))
      ∧ (gvkMatch ⟨matchAnyValue, matchAnyValue, "Foo"⟩ g = true
          ↔ g.Kind = "Foo") := by
  constructor
  · rw [gvkMatch_iff_specMatches]
    simp only [specMatches, specFieldMatches]
    tauto
  · constructor
    · intro hm
      have h2 := (gvkMatch_iff_specMatches ⟨matchAnyValue, matchAnyValue, "Foo"⟩ g).mp hm
      simp only [specMatches, specFieldMatches, matchAnyValue] at h2
      rcases h2 with ⟨-, -, -, hk | hk⟩
      · exact absurd hk (by decide)
      · exact hk.symm
    · intro hk
      refine (gvkMatch_iff_specMatches ⟨matchAnyValue, matchAnyValue, "Foo"⟩ g).mpr
        ⟨by decide, ?_, ?_, ?_⟩ <;>
        simp [specFieldMatches, matchAnyValue, hk]

/-- Witness for C2 at a concrete spec and descriptor. -/
theorem gvkMatch_fieldwise_witness :
    gvkMatch ⟨"apps", "v1", "Foo"⟩ ⟨"apps", "v1", "Foo"⟩ = true := by
  have h := gvkMatch_fieldwise ⟨"apps", "v1", "Foo"⟩ ⟨"apps", "v1", "Foo"⟩
    (by decide)
  exact h.1.mpr (by decide)

lemma inclusionsFor_append (g : GroupVersionKind) (l1 l2 : List GroupVersionKind) :
    inclusionsFor g (l1 ++ l2) = inclusionsFor g l1 ++ inclusionsFor g l2 := by
  induction l1 with
  | nil => simp [inclusionsFor]
  | cons w ws ih => simp [inclusionsFor, ih]

/-- **C3.** A watch spec whose three fields are all the wildcard matches no
descriptor, and its presence anywhere in the registry contributes no inclusion
to the output of `filterGKVsFromAddToScheme`, for any input list. -/
theorem allWildcard_matches_nothing (g : GroupVersionKind)
    (s1 s2 gvks : List GroupVersionKind) :
    gvkMatch ⟨matchAnyValue, matchAnyValue, matchAnyValue⟩ g = false
      ∧ filterGKVsFromAddToScheme
          (s1 ++ ⟨matchAnyValue, matchAnyValue, matchAnyValue⟩ :: s2) gvks
        = filterGKVsFromAddToScheme (s1 ++ s2) gvks := by
  have hfalse : ∀ g2 : GroupVersionKind,
      gvkMatch ⟨matchAnyValue, matchAnyValue, matchAnyValue⟩ g2 = false := by
    intro g2
    simp [gvkMatch]
  refine ⟨hfalse g, ?_⟩
  rw [filter_eq_flatten, filter_eq_flatten]
  congr 1
  apply List.map_congr_left
  intro gvk _
  rw [inclusionsFor_append, inclusionsFor_append]
  have hdrop : inclusionsFor gvk (⟨matchAnyValue, matchAnyValue, matchAnyValue⟩ :: s2)
      = inclusionsFor gvk s2 := by
    simp [inclusionsFor, hfalse gvk]
  rw [hdrop]

lemma inclusionsFor_eq_replicate (g : GroupVersionKind)
    (ws : List GroupVersionKind) :
    inclusionsFor g ws
      = List.replicate (ws.countP (fun w => gvkMatch w g)) g := by
  induction ws with
  | nil => simp [inclusionsFor]
  | cons w ws ih =>
    by_cases h : gvkMatch w g = true
    · simp only [inclusionsFor, ih, List.countP_cons, h, if_true, ite_true,
        List.singleton_append]
      rw [List.replicate_succ]
    · simp [inclusionsFor, ih, List.countP_cons, h]

/-- **C4.** `filterGKVsFromAddToScheme` is order-preserving and performs no
deduplication: the output is the input-ordered concatenation in which each
descriptor `g` is replaced by `k` copies of itself, where `k` is the number of
registry specs that `g` matches. -/
theorem filter_order_preserving_no_dedup (watched gvks : List GroupVersionKind) :
    filterGKVsFromAddToScheme watched gvks
      = (gvks.map (fun g =>
          List.replicate (watched.countP (fun w => gvkMatch w g)) g)).flatten := by
  rw [filter_eq_flatten]
  congr 1
  apply List.map_congr_left
  intro g _
  exact inclusionsFor_eq_replicate g watched

/-- **C9.** `filterGKVsFromAddToScheme` is a list homomorphism over
concatenation of its input: filtering `d1 ++ d2` equals filtering `d1`
concatenated with filtering `d2`. -/
theorem filter_append_hom (watched d1 d2 : List GroupVersionKind) :
    filterGKVsFromAddToScheme watched (d1 ++ d2)
      = filterGKVsFromAddToScheme watched d1
        ++ filterGKVsFromAddToScheme watched d2 := by
  simp [filter_eq_flatten]

/-! Manager options built by `main` (lines 91-103).  Go strings are modelled
as lists of characters; `strings.Contains(s, ",")` and `strings.Split(s, ",")`
are modelled for the single-character separator. -/

/-- Go `strings.Contains(s, sep)` for a one-character separator. -/
def containsChar (sep : Char) (s : List Char) : Bool := s.contains sep

/-- Go `strings.Split(s, sep)` for a one-character separator: splits on every
occurrence, preserving order, with no trimming and no deduplication;
the empty string yields the one-element list of the empty string. -/
def splitOnChar (sep : Char) : List Char → List (List Char)
  | [] => [[]]
  | c :: cs =>
    if c = sep then [] :: splitOnChar sep cs
    else
      match splitOnChar sep cs with
      | [] => [[c]]
      | h :: t => (c :: h) :: t

/-- The fields of `manager.Options` that `main` sets and that depend on the
watch namespace: `Namespace`, and `NewCache` as the namespace list handed to
`cache.MultiNamespacedCacheBuilder` when one is configured. -/
structure ManagerOptions where
  Namespace : List Char
  NewCache : Option (List (List Char))
deriving DecidableEq, Repr

/-- Lines 91-103 of `cmd/manager/main.go`: options start with
`Namespace = watchNamespace` and no cache builder; when the watch namespace
contains a comma, `Namespace` is cleared and `NewCache` is set to the
multi-namespaced builder over the comma-split list. -/
def buildManagerOptions (watchNamespace : List Char) : ManagerOptions :=
  let options : ManagerOptions := ⟨watchNamespace, none⟩
  if containsChar ',' watchNamespace then
    ⟨[], some (splitOnChar ',' watchNamespace)⟩
  else
    options

/-- **C5.** When the watch-namespace string contains a comma, the manager
options clear `Namespace` to empty and set `NewCache` to the multi-namespaced
cache builder over the comma-split, order-preserving list of names; when it
contains no comma, `Namespace` equals the string itself and no
multi-namespace cache builder is configured. -/
theorem buildManagerOptions_namespace_cache (watchNamespace : List Char) :
    (containsChar ',' watchNamespace = true →
        (buildManagerOptions watchNamespace).Namespace = []
          ∧ (buildManagerOptions watchNamespace).NewCache
              = some (splitOnChar ',' watchNamespace))
      ∧ (containsChar ',' watchNamespace = false →
          (buildManagerOptions watchNamespace).Namespace = watchNamespace
            ∧ (buildManagerOptions watchNamespace).NewCache = none) := by
  constructor <;> intro h <;> simp [buildManagerOptions, h]

/-- Witness for C5 at the spec scenario `watch-namespace = "team-a,team-b"`
and at the comma-free string `"ns1"`. -/
theorem buildManagerOptions_namespace_cache_witness :
    ((buildManagerOptions "team-a,team-b".toList).Namespace = []
        ∧ (buildManagerOptions "team-a,team-b".toList).NewCache
            = some ["team-a".toList, "team-b".toList])
      ∧ (buildManagerOptions "ns1".toList).Namespace = "ns1".toList
        ∧ (buildManagerOptions "ns1".toList).NewCache = none := by
  refine ⟨?_, ?_⟩
  · have h := (buildManagerOptions_namespace_cache "team-a,team-b".toList).1
      (by decide)
    exact ⟨h.1, h.2.trans (by decide)⟩
  · exact (buildManagerOptions_namespace_cache "ns1".toList).2 (by decide)

/-! The startup control flow of `main` and `serveCRMetrics`, as the trace of
collaborator calls, log statements and process exits each run produces, given
the outcome of every fallible collaborator call. -/

/-- Failure values returned by the collaborators of `main`.  The sentinel
`metrics.ErrServiceMonitorNotPresent` is one distinguished value; every other
error is `other`. -/
inductive OpError
  | serviceMonitorNotPresent
  | other (code : Nat)
deriving DecidableEq, Repr

/-- Log severities of the logrus calls appearing in `main`
(`log.Infof`, `log.Warnf`, `log.Errorf`). -/
inductive LogLevel
  | info
  | warn
  | error
deriving DecidableEq, Repr

/-- The log statements of `main`, identified by call site. -/
inductive LogSite
  | watchNamespaceFallback
  | getConfigFailed
  | leaderBecomeFailed
  | managerNewFailed
  | addToSchemeFailed
  | addToManagerFailed
  | serveCRMetricsFailed
  | createMetricsServiceFailed
  | createServiceMonitorsFailed
  | serviceMonitorGuidance
  | mgrExitedNonZero
deriving DecidableEq, Repr

/-- The external calls `main` makes, in program order. -/
inductive Stage
  | getWatchNamespace
  | getConfig
  | leaderBecome
  | managerNew
  | addToScheme
  | addToManager
  | serveCRMetrics
  | createMetricsService
  | createServiceMonitors
  | mgrStart
deriving DecidableEq, Repr

/-- One observable event of a run of `main`. -/
inductive MainEvent
  | call (s : Stage)
  | log (lvl : LogLevel) (site : LogSite)
  | exit (code : Nat)
deriving DecidableEq, Repr

/-- The steps `serveCRMetrics` performs, in program order.  The filtering and
metrics-serving steps carry the filtered GVK list they operate on. -/
inductive CRMetricsStep
  | getGVKsCalled
  | getOperatorNamespaceCalled
  | filterComputed (filteredGVK : List GroupVersionKind)
  | generateAndServeCalled (filteredGVK : List GroupVersionKind)
deriving DecidableEq, Repr

/-- Outcomes of the collaborator calls inside `serveCRMetrics`, plus the
process-wide watched-resources registry the filter reads. -/
structure CRMetricsEnv where
  watchedResources : List GroupVersionKind
  getGVKsErr : Option OpError
  gvks : List GroupVersionKind
  getOperatorNamespaceErr : Option OpError
  generateAndServeErr : Option OpError
deriving DecidableEq, Repr

/-- `serveCRMetrics` from `cmd/manager/main.go` (lines 166-194): gets the
GVK list, gets the operator namespace, computes the filtered GVK list via
`filterGKVsFromAddToScheme`, and generates and serves the CR metrics, each
fallible call returning its error immediately.  The result is the list of
steps performed paired with the returned error. -/
def serveCRMetrics (env : CRMetricsEnv) : List CRMetricsStep × Option OpError :=
  match env.getGVKsErr with
  | some e => ([CRMetricsStep.getGVKsCalled], some e)
  | none =>
    match env.getOperatorNamespaceErr with
    | some e =>
      ([CRMetricsStep.getGVKsCalled, CRMetricsStep.getOperatorNamespaceCalled],
        some e)
    | none =>
      ([CRMetricsStep.getGVKsCalled, CRMetricsStep.getOperatorNamespaceCalled,
        CRMetricsStep.filterComputed
          (filterGKVsFromAddToScheme env.watchedResources env.gvks),
        CRMetricsStep.generateAndServeCalled
          (filterGKVsFromAddToScheme env.watchedResources env.gvks)],
        env.generateAndServeErr)

/-- Outcomes of the fallible collaborator calls of `main`. -/
structure MainEnv where
  getWatchNamespaceErr : Option OpError
  watchNamespace : List Char
  getConfigErr : Option OpError
  leaderBecomeErr : Option OpError
  managerNewErr : Option OpError
  addToSchemeErr : Option OpError
  addToManagerErr : Option OpError
  crMetrics : CRMetricsEnv
  createMetricsServiceErr : Option OpError
  createServiceMonitorsErr : Option OpError
  mgrStartErr : Option OpError
deriving DecidableEq, Repr

/-- `main` from `cmd/manager/main.go` (lines 56-162) as the trace of events
it produces.  `os.Exit(1)` ends the trace with `exit 1`; a trace without an
exit event is a run that reached `mgr.Start` and returned cleanly. -/
def main (env : MainEnv) : List MainEvent :=
  let evs := [MainEvent.call Stage.getWatchNamespace]
  let evs := evs ++ (match env.getWatchNamespaceErr with
    | some _ => [MainEvent.log LogLevel.warn LogSite.watchNamespaceFallback]
    | none => [])
  let evs := evs ++ [MainEvent.call Stage.getConfig]
  match env.getConfigErr with
  | some _ =>
    evs ++ [MainEvent.log LogLevel.error LogSite.getConfigFailed,
      MainEvent.exit 1]
  | none =>
  let evs := evs ++ [MainEvent.call Stage.leaderBecome]
  match env.leaderBecomeErr with
  | some _ =>
    evs ++ [MainEvent.log LogLevel.error LogSite.leaderBecomeFailed,
      MainEvent.exit 1]
  | none =>
  let evs := evs ++ [MainEvent.call Stage.managerNew]
  match env.managerNewErr with
  | some _ =>
    evs ++ [MainEvent.log LogLevel.error LogSite.managerNewFailed,
      MainEvent.exit 1]
  | none =>
  let evs := evs ++ [MainEvent.call Stage.addToScheme]
  match env.addToSchemeErr with
  | some _ =>
    evs ++ [MainEvent.log LogLevel.error LogSite.addToSchemeFailed,
      MainEvent.exit 1]
  | none =>
  let evs := evs ++ [MainEvent.call Stage.addToManager]
  match env.addToManagerErr with
  | some _ =>
    evs ++ [MainEvent.log LogLevel.error LogSite.addToManagerFailed,
      MainEvent.exit 1]
  | none =>
  let evs := evs ++ [MainEvent.call Stage.serveCRMetrics]
  let evs := evs ++ (match (serveCRMetrics env.crMetrics).2 with
    | some _ => [MainEvent.log LogLevel.error LogSite.serveCRMetricsFailed]
    | none => [])
  let evs := evs ++ [MainEvent.call Stage.createMetricsService]
  let evs := evs ++ (match env.createMetricsServiceErr with
    | some _ => [MainEvent.log LogLevel.error LogSite.createMetricsServiceFailed]
    | none => [])
  let evs := evs ++ [MainEvent.call Stage.createServiceMonitors]
  let evs := evs ++ (match env.createServiceMonitorsErr with
    | some e =>
      [MainEvent.log LogLevel.error LogSite.createServiceMonitorsFailed]
        ++ (if e = OpError.serviceMonitorNotPresent then
              [MainEvent.log LogLevel.error LogSite.serviceMonitorGuidance]
            else [])
    | none => [])
  let evs := evs ++ [MainEvent.call Stage.mgrStart]
  match env.mgrStartErr with
  | some _ =>
    evs ++ [MainEvent.log LogLevel.error LogSite.mgrExitedNonZero,
      MainEvent.exit 1]
  | none => evs

/-- **C6.** Whenever `leader.Become` fails (and the preceding config step
succeeded, so the leadership step is reached), `main` logs the error and
exits with status 1, `manager.New` is never called, and the single leadership
attempt is not retried. -/
theorem leaderBecome_failure_fatal (env : MainEnv) (e : OpError)
    (hcfg : env.getConfigErr = none)
    (hl : env.leaderBecomeErr = some e) :
    MainEvent.call Stage.managerNew ∉ main env
      ∧ MainEvent.log LogLevel.error LogSite.leaderBecomeFailed ∈ main env
      ∧ (main env).getLast? = some (MainEvent.exit 1)
      ∧ (main env).count (MainEvent.call Stage.leaderBecome) = 1 := by
  cases hw : env.getWatchNamespaceErr <;>
    simp only [main, hw, hcfg, hl] <;> decide

/-- A run in which only leadership acquisition fails. -/
def envLeaderFail : MainEnv :=
  ⟨none, [], none, some (OpError.other 7), none, none, none,
    ⟨[], none, [], none, none⟩, none, none, none⟩

/-- Witness for C6 at a concrete environment. -/
theorem leaderBecome_failure_fatal_witness :
    MainEvent.call Stage.managerNew ∉ main envLeaderFail
      ∧ MainEvent.log LogLevel.error LogSite.leaderBecomeFailed ∈ main envLeaderFail
      ∧ (main envLeaderFail).getLast? = some (MainEvent.exit 1)
      ∧ (main envLeaderFail).count (MainEvent.call Stage.leaderBecome) = 1 :=
  leaderBecome_failure_fatal envLeaderFail (OpError.other 7) rfl rfl

/-- A run in which every collaborator succeeds except the GVK enumeration
inside `serveCRMetrics`, which fails: the Metrics Publisher stage fails. -/
def envCRMetricsFail : MainEnv :=
  ⟨none, [], none, none, none, none, none,
    ⟨[], some (OpError.other 3), [], none, none⟩, none, none, none⟩

/-- **C7, counterexample.** A Metrics Publisher failure is not fatal: with
`serveCRMetrics` failing, `main` logs the error but still calls the metrics
Service step, the ServiceMonitor step and `mgr.Start`, and never exits with
status 1 — contradicting the claim that any failure in a stage other than
namespace resolution halts the sequence with a non-zero exit. -/
theorem metrics_stage_failure_not_fatal :
    (serveCRMetrics envCRMetricsFail.crMetrics).2 = some (OpError.other 3)
      ∧ MainEvent.log LogLevel.error LogSite.serveCRMetricsFailed
          ∈ main envCRMetricsFail
      ∧ MainEvent.call Stage.createMetricsService ∈ main envCRMetricsFail
      ∧ MainEvent.call Stage.createServiceMonitors ∈ main envCRMetricsFail
      ∧ MainEvent.call Stage.mgrStart ∈ main envCRMetricsFail
      ∧ MainEvent.exit 1 ∉ main envCRMetricsFail := by
  decide

/-- **C7, amended.** A failure in leadership acquisition, manager
construction, scheme registration, controller registration or the run loop is
fatal — `main` exits with status 1 and no later stage runs — while a failure
inside the Metrics Publisher stage is only logged: the run still reaches
`mgr.Start`, and the exit status depends only on the run loop. -/
theorem fatal_and_nonfatal_stages (env : MainEnv) :
    (env.getConfigErr = none → env.leaderBecomeErr ≠ none →
        (main env).getLast? = some (MainEvent.exit 1)
          ∧ MainEvent.call Stage.managerNew ∉ main env)
      ∧ (env.getConfigErr = none → env.leaderBecomeErr = none →
          env.managerNewErr ≠ none →
          (main env).getLast? = some (MainEvent.exit 1)
            ∧ MainEvent.call Stage.addToScheme ∉ main env)
      ∧ (env.getConfigErr = none → env.leaderBecomeErr = none →
          env.managerNewErr = none → env.addToSchemeErr ≠ none →
          (main env).getLast? = some (MainEvent.exit 1)
            ∧ MainEvent.call Stage.addToManager ∉ main env)
      ∧ (env.getConfigErr = none → env.leaderBecomeErr = none →
          env.managerNewErr = none → env.addToSchemeErr = none →
          env.addToManagerErr ≠ none →
          (main env).getLast? = some (MainEvent.exit 1)
            ∧ MainEvent.call Stage.serveCRMetrics ∉ main env)
      ∧ (env.getConfigErr = none → env.leaderBecomeErr = none →
          env.managerNewErr = none → env.addToSchemeErr = none →
          env.addToManagerErr = none →
          MainEvent.call Stage.mgrStart ∈ main env
            ∧ (env.mgrStartErr = none → MainEvent.exit 1 ∉ main env)
            ∧ (env.mgrStartErr ≠ none →
                (main env).getLast? = some (MainEvent.exit 1))) := by
  refine ⟨?_, ?_, ?_, ?_, ?_⟩
  · intro h1 h2
    cases hl : env.leaderBecomeErr with
    | none => exact absurd hl h2
    | some e =>
      cases hw : env.getWatchNamespaceErr <;>
        simp only [main, hw, h1, hl] <;> decide
  · intro h1 h2 h3
    cases hm : env.managerNewErr with
    | none => exact absurd hm h3
    | some e =>
      cases hw : env.getWatchNamespaceErr <;>
        simp only [main, hw, h1, h2, hm] <;> decide
  · intro h1 h2 h3 h4
    cases hs : env.addToSchemeErr with
    | none => exact absurd hs h4
    | some e =>
      cases hw : env.getWatchNamespaceErr <;>
        simp only [main, hw, h1, h2, h3, hs] <;> decide
  · intro h1 h2 h3 h4 h5
    cases hm : env.addToManagerErr with
    | none => exact absurd hm h5
    | some e =>
      cases hw : env.getWatchNamespaceErr <;>
        simp only [main, hw, h1, h2, h3, h4, hm] <;> decide
  · intro h1 h2 h3 h4 h5
    refine ⟨?_, ?_, ?_⟩
    · cases hw : env.getWatchNamespaceErr <;>
        cases hcr : (serveCRMetrics env.crMetrics).2 <;>
        cases hms : env.createMetricsServiceErr <;>
        cases hsm : env.createServiceMonitorsErr <;>
        cases hstart : env.mgrStartErr <;>
        simp only [main, hw, h1, h2, h3, h4, h5, hcr, hms, hsm, hstart] <;>
        first
          | decide
          | (split <;> decide)
    · intro h6
      cases hw : env.getWatchNamespaceErr <;>
        cases hcr : (serveCRMetrics env.crMetrics).2 <;>
        cases hms : env.createMetricsServiceErr <;>
        cases hsm : env.createServiceMonitorsErr <;>
        simp only [main, hw, h1, h2, h3, h4, h5, hcr, hms, hsm, h6] <;>
        first
          | decide
          | (split <;> decide)
    · intro h6
      cases hstart : env.mgrStartErr with
      | none => exact absurd hstart h6
      | some e =>
        cases hw : env.getWatchNamespaceErr <;>
          cases hcr : (serveCRMetrics env.crMetrics).2 <;>
          cases hms : env.createMetricsServiceErr <;>
          cases hsm : env.createServiceMonitorsErr <;>
          simp only [main, hw, h1, h2, h3, h4, h5, hcr, hms, hsm, hstart] <;>
          first
            | decide
            | (split <;> decide)

/-- A run in which every collaborator succeeds. -/
def envAllOk : MainEnv :=
  ⟨none, [], none, none, none, none, none,
    ⟨[], none, [], none, none⟩, none, none, none⟩

/-- Witness for the amended C7 at a concrete environment: with every stage
succeeding, the run reaches `mgr.Start` and never exits with status 1. -/
theorem fatal_and_nonfatal_stages_witness :
    MainEvent.call Stage.mgrStart ∈ main envAllOk
      ∧ MainEvent.exit 1 ∉ main envAllOk := by
  have h := (fatal_and_nonfatal_stages envAllOk).2.2.2.2 rfl rfl rfl rfl rfl
  exact ⟨h.1, h.2.1 rfl⟩

/-- A run in which every collaborator succeeds except ServiceMonitor
creation, which fails with `metrics.ErrServiceMonitorNotPresent`. -/
def envSMNotPresent : MainEnv :=
  ⟨none, [], none, none, none, none, none,
    ⟨[], none, [], none, none⟩, none,
    some OpError.serviceMonitorNotPresent, none⟩

/-- **C8, counterexample.** When ServiceMonitor creation fails with
`ErrServiceMonitorNotPresent`, the guidance message is emitted by
`log.Errorf` — the same error severity as every other failure log of `main` —
not at a lower severity: the run emits no warn- or info-level log at all,
contradicting the claim that the condition is logged at a lower severity. -/
theorem serviceMonitor_guidance_same_severity :
    MainEvent.log LogLevel.error LogSite.createServiceMonitorsFailed
        ∈ main envSMNotPresent
      ∧ MainEvent.log LogLevel.error LogSite.serviceMonitorGuidance
          ∈ main envSMNotPresent
      ∧ MainEvent.log LogLevel.warn LogSite.serviceMonitorGuidance
          ∉ main envSMNotPresent
      ∧ (main envSMNotPresent).countP
          (fun ev => match ev with
            | MainEvent.log LogLevel.warn _ => true
            | MainEvent.log LogLevel.info _ => true
            | _ => false) = 0 := by
  decide

/-- **C8, amended.** The `ErrServiceMonitorNotPresent` condition is
distinguished from other ServiceMonitor-creation failures — an additional
actionable guidance message is logged exactly for it, though at the same
error severity — and the process still proceeds: `mgr.Start` is reached and
the exit status is unaffected by this failure. -/
theorem serviceMonitorNotPresent_distinguished_nonfatal (env : MainEnv)
    (h1 : env.getConfigErr = none) (h2 : env.leaderBecomeErr = none)
    (h3 : env.managerNewErr = none) (h4 : env.addToSchemeErr = none)
    (h5 : env.addToManagerErr = none) :
    (env.createServiceMonitorsErr = some OpError.serviceMonitorNotPresent →
        MainEvent.log LogLevel.error LogSite.serviceMonitorGuidance ∈ main env)
      ∧ (∀ c, env.createServiceMonitorsErr = some (OpError.other c) →
          MainEvent.log LogLevel.error LogSite.serviceMonitorGuidance ∉ main env)
      ∧ (env.createServiceMonitorsErr = some OpError.serviceMonitorNotPresent →
          MainEvent.call Stage.mgrStart ∈ main env
            ∧ (env.mgrStartErr = none → MainEvent.exit 1 ∉ main env)) := by
  refine ⟨?_, ?_, ?_⟩
  · intro hsm
    cases hw : env.getWatchNamespaceErr <;>
      cases hcr : (serveCRMetrics env.crMetrics).2 <;>
      cases hms : env.createMetricsServiceErr <;>
      cases hstart : env.mgrStartErr <;>
      simp only [main, hw, h1, h2, h3, h4, h5, hcr, hms, hsm, hstart] <;>
      decide
  · intro c hsm
    cases hw : env.getWatchNamespaceErr <;>
      cases hcr : (serveCRMetrics env.crMetrics).2 <;>
      cases hms : env.createMetricsServiceErr <;>
      cases hstart : env.mgrStartErr <;>
      simp only [main, hw, h1, h2, h3, h4, h5, hcr, hms, hsm, hstart] <;>
      first
        | decide
        | (split <;> first | decide | simp_all)
  · intro hsm
    refine ⟨?_, ?_⟩
    · cases hw : env.getWatchNamespaceErr <;>
        cases hcr : (serveCRMetrics env.crMetrics).2 <;>
        cases hms : env.createMetricsServiceErr <;>
        cases hstart : env.mgrStartErr <;>
        simp only [main, hw, h1, h2, h3, h4, h5, hcr, hms, hsm, hstart] <;>
        decide
    · intro h6
      cases hw : env.getWatchNamespaceErr <;>
        cases hcr : (serveCRMetrics env.crMetrics).2 <;>
        cases hms : env.createMetricsServiceErr <;>
        simp only [main, hw, h1, h2, h3, h4, h5, hcr, hms, hsm, h6] <;>
        decide

/-- Witness for the amended C8 at a concrete environment. -/
theorem serviceMonitorNotPresent_distinguished_nonfatal_witness :
    MainEvent.log LogLevel.error LogSite.serviceMonitorGuidance
        ∈ main envSMNotPresent
      ∧ MainEvent.call Stage.mgrStart ∈ main envSMNotPresent
      ∧ MainEvent.exit 1 ∉ main envSMNotPresent := by
  have h := serviceMonitorNotPresent_distinguished_nonfatal envSMNotPresent
    rfl rfl rfl rfl rfl
  exact ⟨h.1 rfl, (h.2.2 rfl).1, (h.2.2 rfl).2 rfl⟩

/-- **C10.** If determining the operator namespace fails inside
`serveCRMetrics`, the function returns that error after only the GVK
enumeration and namespace steps — the filtered GVK set is never computed and
no CR metrics are generated or served, even though the GVK list was obtained
successfully — while `main` only logs the error and still proceeds to the
metrics Service and ServiceMonitor creation steps, with the exit status
unaffected. -/
theorem operatorNamespace_failure_skips_metrics (env : MainEnv) (e : OpError)
    (h1 : env.getConfigErr = none) (h2 : env.leaderBecomeErr = none)
    (h3 : env.managerNewErr = none) (h4 : env.addToSchemeErr = none)
    (h5 : env.addToManagerErr = none)
    (hg : env.crMetrics.getGVKsErr = none)
    (hn : env.crMetrics.getOperatorNamespaceErr = some e) :
    serveCRMetrics env.crMetrics
        = ([CRMetricsStep.getGVKsCalled,
            CRMetricsStep.getOperatorNamespaceCalled], some e)
      ∧ MainEvent.log LogLevel.error LogSite.serveCRMetricsFailed ∈ main env
      ∧ MainEvent.call Stage.createMetricsService ∈ main env
      ∧ MainEvent.call Stage.createServiceMonitors ∈ main env
      ∧ (env.mgrStartErr = none → MainEvent.exit 1 ∉ main env) := by
  have hcr : serveCRMetrics env.crMetrics
      = ([CRMetricsStep.getGVKsCalled,
          CRMetricsStep.getOperatorNamespaceCalled], some e) := by
    simp only [serveCRMetrics, hg, hn]
  have hcr2 : (serveCRMetrics env.crMetrics).2 = some e := by rw [hcr]
  refine ⟨hcr, ?_, ?_, ?_, ?_⟩
  · cases hw : env.getWatchNamespaceErr <;>
      cases hms : env.createMetricsServiceErr <;>
      cases hsm : env.createServiceMonitorsErr <;>
      cases hstart : env.mgrStartErr <;>
      simp only [main, hw, h1, h2, h3, h4, h5, hcr2, hms, hsm, hstart] <;>
      first
        | decide
        | (split <;> decide)
  · cases hw : env.getWatchNamespaceErr <;>
      cases hms : env.createMetricsServiceErr <;>
      cases hsm : env.createServiceMonitorsErr <;>
      cases hstart : env.mgrStartErr <;>
      simp only [main, hw, h1, h2, h3, h4, h5, hcr2, hms, hsm, hstart] <;>
      first
        | decide
        | (split <;> decide)
  · cases hw : env.getWatchNamespaceErr <;>
      cases hms : env.createMetricsServiceErr <;>
      cases hsm : env.createServiceMonitorsErr <;>
      cases hstart : env.mgrStartErr <;>
      simp only [main, hw, h1, h2, h3, h4, h5, hcr2, hms, hsm, hstart] <;>
      first
        | decide
        | (split <;> decide)
  · intro h6
    cases hw : env.getWatchNamespaceErr <;>
      cases hms : env.createMetricsServiceErr <;>
      cases hsm : env.createServiceMonitorsErr <;>
      simp only [main, hw, h1, h2, h3, h4, h5, hcr2, hms, hsm, h6] <;>
      first
        | decide
        | (split <;> decide)

/-- A run in which only the operator-namespace lookup inside
`serveCRMetrics` fails. -/
def envOperatorNsFail : MainEnv :=
  ⟨none, [], none, none, none, none, none,
    ⟨[], none, [], some (OpError.other 5), none⟩, none, none, none⟩

/-- Witness for C10 at a concrete environment. -/
theorem operatorNamespace_failure_skips_metrics_witness :
    serveCRMetrics envOperatorNsFail.crMetrics
        = ([CRMetricsStep.getGVKsCalled,
            CRMetricsStep.getOperatorNamespaceCalled], some (OpError.other 5))
      ∧ MainEvent.log LogLevel.error LogSite.serveCRMetricsFailed
          ∈ main envOperatorNsFail
      ∧ MainEvent.call Stage.createMetricsService ∈ main envOperatorNsFail
      ∧ MainEvent.call Stage.createServiceMonitors ∈ main envOperatorNsFail
      ∧ MainEvent.exit 1 ∉ main envOperatorNsFail := by
  have h := operatorNamespace_failure_skips_metrics envOperatorNsFail
    (OpError.other 5) rfl rfl rfl rfl rfl rfl rfl
  exact ⟨h.1, h.2.1, h.2.2.1, h.2.2.2.1, h.2.2.2.2 rfl⟩

end KfctlMain
